import Mathlib

/-!
Shallow embedding of the Scrabble implementation (`scrabble_real_code.py`).

Board cells are the literal display strings the program stores, including the
ANSI color escape sequences, because the validation and scoring logic branches
on those strings.  Python list and string indexing (negative wrap-around and
the possibility of a raised `IndexError`) is modelled by `Option`-valued
access: a raised exception surfaces as `none`.  The uniform shuffle primitive
is an external collaborator and is passed in as a permutation parameter.
-/

namespace Scrabble

/-- Characters removed by the Python `str.strip()` method. -/
def pyWhitespace (c : Char) : Bool :=
  c = ' ' || c = '\t' || c = '\n' || c = '\r' || c = '\x0b' || c = '\x0c'

/-- Python `s.strip()`: drop leading and trailing whitespace.  The ANSI escape
character `\x1b` is not whitespace, so colored cell strings pass through
unchanged. -/
def pyStrip (s : String) : String :=
  String.mk (((s.toList.dropWhile pyWhitespace).reverse.dropWhile pyWhitespace).reverse)

/-- Python list indexing `l[i]`: a negative index wraps around once; an index
that is still out of range raises `IndexError`, modelled as `none`. -/
def pyGetI (l : List α) (i : Int) : Option α :=
  let j : Int := if i < 0 then i + l.length else i
  if j < 0 then none else l.get? j.toNat

/-- Python item assignment `l[i] = v`. -/
def pySetI (l : List α) (i : Int) (v : α) : Option (List α) :=
  let j : Int := if i < 0 then i + l.length else i
  if j < 0 ∨ (l.length : Int) ≤ j then none else some (l.set j.toNat v)

/-- Python `b[r][c]` on a nested list. -/
def pyGet2 (b : List (List α)) (r c : Int) : Option α := do
  let row ← pyGetI b r
  pyGetI row c

/-- Python `b[r][c] = v` on a nested list. -/
def pySet2 (b : List (List α)) (r c : Int) (v : α) : Option (List (List α)) := do
  let row ← pyGetI b r
  let row2 ← pySetI row c v
  pySetI b r row2

/-- Python string indexing `s[i]`. -/
def pyStrGet (s : String) (i : Int) : Option Char := pyGetI s.toList i

/-- Python `s.upper()` (the program only handles ASCII input). -/
def pyUpper (s : String) : String := String.mk (s.toList.map Char.toUpper)

/-- Python `s.lower()`. -/
def pyLower (s : String) : String := String.mk (s.toList.map Char.toLower)

/-- Python `s.count(c)` for a single character. -/
def strCount (s : String) (c : Char) : Nat := s.toList.count c

/-- ANSI escape code constants from the top of the source file. -/
def RED_TEXT : String := "\x1b[1;31m"

def BLUE_TEXT : String := "\x1b[0;34m"

def LIGHT_BLUE_TEXT : String := "\x1b[1;34m"

def CYAN_TEXT : String := "\x1b[0;36m"

def LIGHT_CYAN_TEXT : String := "\x1b[1;36m"

def YELLOW_TEXT : String := "\x1b[0;33m"

def RESET_TEXT : String := "\x1b[0m"

/-- The string stored in an empty board cell. -/
def emptyCell : String := "   "

/-- The string stored in a triple-word-score cell. -/
def twsCell : String := LIGHT_BLUE_TEXT ++ "TWS" ++ RESET_TEXT

/-- The string stored in a triple-letter-score cell. -/
def tlsCell : String := BLUE_TEXT ++ "TLS" ++ RESET_TEXT

/-- The string stored in a double-word-score cell. -/
def dwsCell : String := LIGHT_CYAN_TEXT ++ "DWS" ++ RESET_TEXT

/-- The string stored in a double-letter-score cell. -/
def dlsCell : String := CYAN_TEXT ++ "DLS" ++ RESET_TEXT

/-- The string stored in the center cell by `Board.__init__`. -/
def centerCell : String := RED_TEXT ++ " * " ++ RESET_TEXT

/-- The string `place_word` stores for a placed letter. -/
def letterCell (c : Char) : String :=
  " " ++ RED_TEXT ++ String.singleton c ++ RESET_TEXT ++ " "

/-- The `LETTER_VALUES` table from the source. -/
def LETTER_VALUES : List (Char × Nat) :=
  [('A', 1), ('B', 3), ('C', 3), ('D', 2), ('E', 1), ('F', 4), ('G', 2), ('H', 4), ('I', 1),
   ('J', 8), ('K', 5), ('L', 1), ('M', 3), ('N', 1), ('O', 1), ('P', 3), ('Q', 10), ('R', 1),
   ('S', 1), ('T', 1), ('U', 1), ('V', 4), ('W', 4), ('X', 8), ('Y', 4), ('Z', 10)]

/-- Python `LETTER_VALUES[c]`; `none` models a raised `KeyError`. -/
def letterValue (c : Char) : Option Nat :=
  (LETTER_VALUES.find? (fun p => p.1 == c)).map (fun p => p.2)

/-- A Scrabble tile (`Tile` class): a letter and its score. -/
structure Tile where
  letter : Char
  score : Nat
  deriving DecidableEq

/-- `Tile.__init__`: uppercase the letter and look up its score, defaulting to
0 when the letter is not in the table. -/
def Tile.make (c : Char) : Tile :=
  let u := c.toUpper
  { letter := u, score := (letterValue u).getD 0 }

/-- `Bag.add_to_bag`: append `q` copies of a tile to the bag list. -/
def addToBag (t : Tile) (q : Nat) (bag : List Tile) : List Tile :=
  bag ++ List.replicate q t

/-- The sequence of `add_to_bag` calls made by `Bag.initialize_bag`, in source
order.  Note the quantities actually used in the source: `J` gets 9 and `K`
gets 1. -/
def bagCalls : List (Char × Nat) :=
  [('A', 9), ('B', 2), ('C', 2), ('D', 4), ('E', 12), ('F', 2), ('G', 3), ('H', 2), ('I', 9),
   ('J', 9), ('K', 1), ('L', 4), ('M', 2), ('N', 6), ('O', 8), ('P', 2), ('Q', 1), ('R', 6),
   ('S', 4), ('T', 6), ('U', 4), ('V', 2), ('W', 2), ('X', 1), ('Y', 2), ('Z', 1)]

/-- `Bag.initialize_bag`: appends the distribution to the current bag contents
(the source never clears `self.bag`) and shuffles.  The shuffle permutation
`σ` is a parameter, since the random shuffle is an external primitive. -/
def initializeBag (σ : List Tile → List Tile) (bag : List Tile) : List Tile :=
  σ (bagCalls.foldl (fun b p => addToBag (Tile.make p.1) p.2 b) bag)

/-- `Bag.take_from_bag`: refill when fewer than 10 tiles remain, then `pop()`
the last element of the list; `none` models a raised `IndexError` on an empty
pop. -/
def takeFromBag (σ : List Tile → List Tile) (bag : List Tile) : Option (Tile × List Tile) :=
  let b := if bag.length < 10 then initializeBag σ bag else bag
  match b.getLast? with
  | some t => some (t, b.dropLast)
  | none => none

/-- The body of the `while` loop in `Rack.replenish_rack`, with an explicit
iteration bound.  The loop runs while the rack has fewer than 7 tiles and the
bag is non-empty; each iteration grows the rack by one tile, so `7` minus the
initial rack size bounds the number of iterations and the bound is never the
reason the loop stops. -/
def replenishRackFuel (σ : List Tile → List Tile) :
    Nat → List Tile → List Tile → Option (List Tile × List Tile)
  | 0, rack, bag => some (rack, bag)
  | fuel + 1, rack, bag =>
    if rack.length < 7 ∧ 0 < bag.length then
      match takeFromBag σ bag with
      | some (t, bag2) => replenishRackFuel σ fuel (rack ++ [t]) bag2
      | none => none
    else some (rack, bag)

/-- `Rack.replenish_rack`: draw from the bag while the rack has fewer than 7
tiles and the bag reports a positive remaining count. -/
def replenishRack (σ : List Tile → List Tile) (rack bag : List Tile) :
    Option (List Tile × List Tile) :=
  replenishRackFuel σ (7 - rack.length) rack bag

/-- A player (`Player` class): name, rack and cumulative score. -/
structure PlayerSt where
  name : String
  rack : List Tile
  score : Nat
  deriving DecidableEq

/-- Separator used by `Rack.get_rack_str`. -/
def commaSep : String := ", "

/-- `Rack.get_rack_str`: comma-separated colored letters. -/
def getRackStr (rack : List Tile) : String :=
  String.intercalate commaSep
    (rack.map (fun t => YELLOW_TEXT ++ String.singleton t.letter ++ RESET_TEXT))

/-- The `TRIPLE_WORD_SCORE` coordinates from `add_premium_squares`. -/
def TRIPLE_WORD_SCORE : List (Nat × Nat) :=
  [(0, 0), (7, 0), (14, 0), (0, 7), (14, 7), (0, 14), (7, 14), (14, 14)]

/-- The `DOUBLE_WORD_SCORE` coordinates from `add_premium_squares`. -/
def DOUBLE_WORD_SCORE : List (Nat × Nat) :=
  [(1, 1), (2, 2), (3, 3), (4, 4), (1, 13), (2, 12), (3, 11), (4, 10),
   (13, 1), (12, 2), (11, 3), (10, 4), (13, 13), (12, 12), (11, 11), (10, 10)]

/-- The `TRIPLE_LETTER_SCORE` coordinates from `add_premium_squares`. -/
def TRIPLE_LETTER_SCORE : List (Nat × Nat) :=
  [(1, 5), (1, 9), (5, 1), (5, 5), (5, 9), (5, 13), (9, 1), (9, 5), (9, 9), (9, 13), (13, 5), (13, 9)]

/-- The `DOUBLE_LETTER_SCORE` coordinates from `add_premium_squares`. -/
def DOUBLE_LETTER_SCORE : List (Nat × Nat) :=
  [(0, 3), (0, 11), (2, 6), (2, 8), (3, 0), (3, 7), (3, 14), (6, 2), (6, 6), (6, 8), (6, 12),
   (7, 3), (7, 11), (8, 2), (8, 6), (8, 8), (8, 12), (11, 0), (11, 7), (11, 14), (12, 6), (12, 8),
   (14, 3), (14, 11)]

/-- Assign one cell of the board by (in-range) literal coordinates. -/
def setCell (b : List (List String)) (rc : Nat × Nat) (v : String) : List (List String) :=
  match b.get? rc.1 with
  | some row => b.set rc.1 (row.set rc.2 v)
  | none => b

/-- `Board.__init__`: a 15 x 15 grid of empty cells, premium markers written
in the source loop order (TWS, TLS, DWS, DLS), then the center marker. -/
def initialBoard : List (List String) :=
  let b := List.replicate 15 (List.replicate 15 emptyCell)
  let b := TRIPLE_WORD_SCORE.foldl (fun b rc => setCell b rc twsCell) b
  let b := TRIPLE_LETTER_SCORE.foldl (fun b rc => setCell b rc tlsCell) b
  let b := DOUBLE_WORD_SCORE.foldl (fun b rc => setCell b rc dwsCell) b
  let b := DOUBLE_LETTER_SCORE.foldl (fun b rc => setCell b rc dlsCell) b
  setCell b (7, 7) centerCell

/-- Classification of one board cell in the reading loop of `check_word`: a
cell whose stripped text is the empty string or a bare marker contributes a
space; otherwise the character at index 1 of the stripped text is extracted.
For every string the program actually stores in a non-empty cell, the stripped
text still begins with the ANSI escape sequence, so that character is `[`. -/
def cellToLtr (cell : String) : Option Char :=
  let s := pyStrip cell
  if s = "" ∨ s = "TWS" ∨ s = "DWS" ∨ s = "TLS" ∨ s = "DLS" ∨ s = "*" then some ' '
  else pyStrGet s 1

/-- The horizontal reading loop of `check_word`: classify the `n` cells
starting at `(r, c)` going right. -/
def readLtrsRight (board : List (List String)) (r c : Int) : Nat → Option (List Char)
  | 0 => some []
  | n + 1 => do
    let cell ← pyGet2 board r c
    let ch ← cellToLtr cell
    let rest ← readLtrsRight board r (c + 1) n
    return ch :: rest

/-- The vertical reading loop of `check_word`: classify the `n` cells starting
at `(r, c)` going down. -/
def readLtrsDown (board : List (List String)) (r c : Int) : Nat → Option (List Char)
  | 0 => some []
  | n + 1 => do
    let cell ← pyGet2 board r c
    let ch ← cellToLtr cell
    let rest ← readLtrsDown board (r + 1) c n
    return ch :: rest

/-- Error message for an invalid direction. -/
def invalidDirectionMsg : String := "Error: Please enter a valid direction (right or down)."

/-- Error message for a word not in the dictionary. -/
def notAWordMsg : String := "Please enter a valid dictionary word.\n"

/-- Error message for a word that does not connect to existing letters. -/
def disconnectedMsg : String := "The word must connect to an existing letter on the board."

/-- Error message for missing tiles (dead in practice, see `missingCheck`). -/
def missingTilesMsg (w : String) : String :=
  "You do not have the necessary tiles to play the word \x27" ++ w ++ "\x27."

/-- Error message for an out-of-bounds placement. -/
def outOfBoundsMsg : String := "The word placement is out of bounds."

/-- Error message for a first word not starting at the center. -/
def mustStartAtCenterMsg : String := "The first word must begin at the center of the board (7, 7)."

/-- Possible Python return values of `check_word`: `True`, the implicit `None`
(reached when the word is empty), or an error message string. -/
inductive PyRet where
  | retTrue
  | retNone
  | retMsg (msg : String)
  deriving DecidableEq

/-- The initial value of the `needed_tiles` variable in `check_word`; nothing
is ever appended to it before the tile-availability loop runs. -/
def neededTilesInit : String := ""

/-- The tile-availability loop of `check_word`: return the missing-tiles
message for the first letter of `neededTiles` the rack string cannot cover.
Because `neededTiles` is always the empty string at the point of use, this
check can never fire. -/
def missingCheck (neededTiles : String) (w : String) (rackStr : String) : Option String :=
  (neededTiles.toList.find? (fun letter =>
      decide (strCount rackStr letter < strCount neededTiles letter))).map
    (fun _ => missingTilesMsg w)

/-- `Word.check_word`.  The result `none` models a raised `IndexError` from the
reading loop indexing a board cell outside the grid; `some .retNone` is the
implicit Python `None` returned for an empty word.  Lines 362 to 367 of the
source re-index exactly the cells the reading loop already indexed, as
effect-free expression statements, and are therefore omitted: they can neither
change state nor raise once the reading loop has succeeded. -/
def checkWord (wordIn : String) (loc : Int × Int) (directionIn : String)
    (board : List (List String)) (roundNumber : Nat) (isFirstPlayer : Bool)
    (dictionary : List String) (rackStr : String) : Option PyRet :=
  let w := pyUpper wordIn
  let d := pyLower directionIn
  if w ≠ "" then
    let ltrs : Option (Option (List Char)) :=
      if d = "right" then some (readLtrsRight board loc.1 loc.2 w.length)
      else if d = "down" then some (readLtrsDown board loc.1 loc.2 w.length)
      else none
    match ltrs with
    | none => some (.retMsg invalidDirectionMsg)
    | some none => none
    | some (some cur) =>
      if w ∉ dictionary then some (.retMsg notAWordMsg)
      else if roundNumber > 1 ∧ cur = List.replicate w.length ' ' then
        some (.retMsg disconnectedMsg)
      else
        match missingCheck neededTilesInit w rackStr with
        | some m => some (.retMsg m)
        | none =>
          if loc.1 < 0 ∨ loc.2 < 0 ∨ (d = "right" ∧ 15 < loc.2 + (w.length : Int))
              ∨ (d = "down" ∧ 15 < loc.1 + (w.length : Int)) then
            some (.retMsg outOfBoundsMsg)
          else if roundNumber = 1 ∧ isFirstPlayer ∧ loc ≠ (7, 7) then
            some (.retMsg mustStartAtCenterMsg)
          else some .retTrue
  else some .retNone

/-- First boolean that holds in an ordered list of checks, with its message. -/
def firstMsg : List (Bool × String) → Option String
  | [] => none
  | (b, m) :: rest => if b then some m else firstMsg rest

/-- Reference formulation of the amended ordering claim for `check_word`
(claim C8): an empty word returns `None`; an invalid direction is reported
before anything else; a reading loop that indexes past the grid raises; and
otherwise the verdict is the first failing check in the fixed order NotAWord,
Disconnected, MissingTiles (inert), OutOfBounds, MustStartAtCenter. -/
def checkWordSpecOrder (wordIn : String) (loc : Int × Int) (directionIn : String)
    (board : List (List String)) (roundNumber : Nat) (isFirstPlayer : Bool)
    (dictionary : List String) (rackStr : String) : Option PyRet :=
  let w := pyUpper wordIn
  let d := pyLower directionIn
  if w = "" then some .retNone
  else if ¬(d = "right" ∨ d = "down") then some (.retMsg invalidDirectionMsg)
  else
    match (if d = "right" then readLtrsRight board loc.1 loc.2 w.length
           else readLtrsDown board loc.1 loc.2 w.length) with
    | none => none
    | some cur =>
      match firstMsg
          [(decide (w ∉ dictionary), notAWordMsg),
           (decide (roundNumber > 1 ∧ cur = List.replicate w.length ' '), disconnectedMsg),
           ((missingCheck neededTilesInit w rackStr).isSome, missingTilesMsg w),
           (decide (loc.1 < 0 ∨ loc.2 < 0 ∨ (d = "right" ∧ 15 < loc.2 + (w.length : Int))
              ∨ (d = "down" ∧ 15 < loc.1 + (w.length : Int))), outOfBoundsMsg),
           (decide (roundNumber = 1 ∧ isFirstPlayer ∧ loc ≠ (7, 7)), mustStartAtCenterMsg)] with
      | some m => some (.retMsg m)
      | none => some .retTrue

/-- The horizontal placement loop of `place_word`: at offset `i`, the cell
`(r0, c0 + i)` is first checked against the empty-cell string (recording a
`(letter, prior content)` bonus trigger when it differs) and then overwritten
with the colored letter string. -/
def placeLoopRight : List (List String) → List (Char × String) → Int → Int → Nat →
    List Char → Option (List (List String) × List (Char × String))
  | board, spots, _, _, _, [] => some (board, spots)
  | board, spots, r0, c0, i, ch :: rest => do
    let cell ← pyGet2 board r0 (c0 + i)
    let spots2 := if cell ≠ emptyCell then spots ++ [(ch, cell)] else spots
    let board2 ← pySet2 board r0 (c0 + i) (letterCell ch)
    placeLoopRight board2 spots2 r0 c0 (i + 1) rest

/-- The vertical placement loop of `place_word`.  As in the source, the cell
checked for a bonus trigger at offset `i` is `(r0, c0 + i)` — the horizontal
offset — while the letter is written to `(r0 + i, c0)`. -/
def placeLoopDown : List (List String) → List (Char × String) → Int → Int → Nat →
    List Char → Option (List (List String) × List (Char × String))
  | board, spots, _, _, _, [] => some (board, spots)
  | board, spots, r0, c0, i, ch :: rest => do
    let cell ← pyGet2 board r0 (c0 + i)
    let spots2 := if cell ≠ emptyCell then spots ++ [(ch, cell)] else spots
    let board2 ← pySet2 board (r0 + i) c0 (letterCell ch)
    placeLoopDown board2 spots2 r0 c0 (i + 1) rest

/-- Python `list.remove(t)`: remove the first element equal to `t`. -/
def pyListRemove (t : Tile) : List Tile → List Tile
  | [] => []
  | u :: us => if u = t then us else u :: pyListRemove t us

/-- The inner `for tile in rack` loop of `place_word` for one word letter.
Python iterates by an internal index over the list being mutated: when the
element at index `k` matches and is removed, the element that slides into
index `k` is skipped.  `fuel` bounds the number of index steps; started at the
list length it is never the reason the loop stops, since the index grows by
one per step and the length never grows. -/
def forPassFuel (l : Char) : Nat → List Tile → Nat → List Tile
  | 0, rack, _ => rack
  | fuel + 1, rack, k =>
    match rack.get? k with
    | none => rack
    | some t =>
      if t.letter = l then forPassFuel l fuel (pyListRemove t rack) (k + 1)
      else forPassFuel l fuel rack (k + 1)

/-- One full pass of the tile-removal loop for a single word letter. -/
def forPass (l : Char) (rack : List Tile) : List Tile :=
  forPassFuel l rack.length rack 0

/-- The tile-removal loop of `place_word`: one pass over the rack per letter
of the (uppercased) word. -/
def removeTiles (w : String) (rack : List Tile) : List Tile :=
  w.toList.foldl (fun r letter => forPass letter r) rack

/-- `Board.place_word`: write the letters, record the bonus-trigger list
(`premium_spots` in the source), remove matching rack tiles, and replenish the
rack from the bag.  An invalid direction runs neither placement loop but still
performs the rack update, exactly as in the source.  The result is the updated
board, the recorded triggers, the updated rack and the updated bag; `none`
models a raised `IndexError`. -/
def placeWord (σ : List Tile → List Tile) (wordIn : String) (loc : Int × Int)
    (directionIn : String) (board : List (List String)) (rack bag : List Tile) :
    Option (List (List String) × List (Char × String) × List Tile × List Tile) := do
  let d := pyLower directionIn
  let w := pyUpper wordIn
  let (board2, spots) ←
    if d = "right" then placeLoopRight board [] loc.1 loc.2 0 w.toList
    else if d = "down" then placeLoopDown board [] loc.1 loc.2 0 w.toList
    else some (board, [])
  let rack2 := removeTiles w rack
  let (rack3, bag2) ← replenishRack σ rack2 bag
  return (board2, spots, rack3, bag2)

/-- The inner `for spot in premium_spots` loop of `calculate_word_score` for
one word letter: a spot whose recorded letter matches adds twice the letter
value when the recorded cell string equals the bare string `TLS` and once when
it equals `DLS`.  `none` models a raised `KeyError` from the value table. -/
def spotsLoop (letter : Char) : List (Char × String) → Nat → Option Nat
  | [], acc => some acc
  | (c2, cell) :: rest, acc =>
    if letter = c2 then
      if cell = "TLS" then do
        let v ← letterValue letter
        spotsLoop letter rest (acc + v * 2)
      else if cell = "DLS" then do
        let v ← letterValue letter
        spotsLoop letter rest (acc + v)
      else spotsLoop letter rest acc
    else spotsLoop letter rest acc

/-- The outer `for letter in self.word` loop of `calculate_word_score`. -/
def lettersLoop (spots : List (Char × String)) : List Char → Nat → Option Nat
  | [], acc => some acc
  | letter :: rest, acc => do
    let acc2 ← spotsLoop letter spots acc
    let v ← letterValue letter
    lettersLoop spots rest (acc2 + v)

/-- The word-multiplier loop of `calculate_word_score`: triple for a recorded
cell equal to the bare string `TWS`, double for `DWS`. -/
def multLoop : List (Char × String) → Nat → Nat
  | [], acc => acc
  | (_, cell) :: rest, acc =>
    if cell = "TWS" then multLoop rest (acc * 3)
    else if cell = "DWS" then multLoop rest (acc * 2)
    else multLoop rest acc

/-- `Word.calculate_word_score`: the score delta added to the acting player. -/
def calcWordScore (w : String) (spots : List (Char × String)) : Option Nat := do
  let s ← lettersLoop spots w.toList 0
  return multLoop spots s

/-- The guard at the top of `turn` (line 453 of the source): `true` means the
turn proceeds, `false` means `end_game()` is called instead. -/
def turnContinues (skippedTurns rackLen bagRemaining : Nat) : Bool :=
  decide (skippedTurns < 6) || (rackLen == 0 && bagRemaining == 0)

/-- A dynamically typed Python value as needed by the winner-selection loop:
an integer or a bound method object. -/
inductive PyVal where
  | vInt (n : Nat)
  | vMethod
  deriving DecidableEq

/-- Message produced by a Python `TypeError`. -/
def typeErrorMsg : String := "TypeError"

/-- Python `>` on dynamically typed operands: defined on two integers and a
`TypeError` otherwise (in particular between a method object and an
integer). -/
def pyGtVal : PyVal → PyVal → Except String Bool
  | .vInt a, .vInt b => .ok (decide (b < a))
  | _, _ => .error typeErrorMsg

/-- The winner-selection loop of `end_game`.  The source compares
`player.get_score` — without parentheses, hence a bound method value — against
the integer `highest_score`. -/
def endGameLoop : List PlayerSt → PyVal → String → Except String String
  | [], _, winner => .ok winner
  | p :: rest, highest, winner =>
    match pyGtVal .vMethod highest with
    | .error e => .error e
    | .ok true => endGameLoop rest (.vInt p.score) p.name
    | .ok false => endGameLoop rest highest winner

/-- `end_game` winner determination: fold the players with
`highest_score = 0` and an empty winner name. -/
def endGame (players : List PlayerSt) : Except String String :=
  endGameLoop players (.vInt 0) ""

/-- The whole mutable game state visible to `check_word`: the board array, the
players (each with rack and score), the bag, and the lazily loaded global
dictionary. -/
structure GameSt where
  board : List (List String)
  players : List PlayerSt
  bag : List Tile
  dictLoaded : Option (List String)
  deriving DecidableEq

/-- The dictionary-loading statement of `check_word`: the global is populated
from the word file on first use and persists afterwards. -/
def loadDictionary (dicFile : List String) (s : GameSt) : GameSt :=
  match s.dictLoaded with
  | some _ => s
  | none => { s with dictLoaded := some dicFile }

/-- `check_word` as a state transformer on the whole game state: the only
state it touches is the lazily loaded dictionary global; the verdict is
computed from the stored board and the rack string of the acting player. -/
def checkWordS (dicFile : List String) (wordIn : String) (loc : Int × Int)
    (directionIn : String) (playerIdx : Nat) (roundNumber : Nat)
    (isFirstPlayer : Bool) (s : GameSt) : Option PyRet × GameSt :=
  let s1 := loadDictionary dicFile s
  let dict := s1.dictLoaded.getD []
  let rackStr := getRackStr (((s1.players.get? playerIdx).map PlayerSt.rack).getD [])
  (checkWord wordIn loc directionIn s1.board roundNumber isFirstPlayer dict rackStr, s1)

/-- Concrete word constants used by the claim instances. -/
def wordAT : String := "AT"

def wordCAT : String := "CAT"

def wordA : String := "A"

/-- A dictionary containing the test words. -/
def dictAT : List String := ["AT", "CAT"]

/-- The board used for claim C1: the fresh board with the cell `(5, 6)` also
holding the triple-letter marker, so the two cells covered by `AT` placed
right from `(5, 5)` are both triple-letter premium cells. -/
def boardTwoTLS : List (List String) := setCell initialBoard (5, 6) tlsCell

/-- Variant board for claim C1: `(5, 5)` holds the triple-word marker and
`(5, 6)` the triple-letter marker. -/
def boardTWSTLS : List (List String) :=
  setCell (setCell initialBoard (5, 5) twsCell) (5, 6) tlsCell

/-- The board used for claim C6: the fresh board with a placed letter `X` at
`(4, 7)`; the cells `(4, 6)` and `(5, 6)` a downward `AT` from `(4, 6)` would
occupy are both empty. -/
def boardWithX : List (List String) := setCell initialBoard (4, 7) (letterCell 'X')

/-- A bag of twenty tiles, large enough that replenishing never refills. -/
def bagTwentyE : List Tile := List.replicate 20 (Tile.make 'E')

/-- The direction string for horizontal placement. -/
def rightDir : String := "right"

/-- The direction string for vertical placement. -/
def downDir : String := "down"

/-- The empty string (used as an empty word or an empty rack string). -/
def emptyStr : String := ""

/-- A rack holding the tiles `A` and `T`. -/
def rackAT : List Tile := [Tile.make 'A', Tile.make 'T']

/-- Number of tiles in a bag carrying a given letter. -/
def countLetter (c : Char) (bag : List Tile) : Nat :=
  (bag.filter (fun t => t.letter == c)).length

/-! ## Helper lemmas -/

theorem missingCheck_init (w rackStr : String) :
    missingCheck neededTilesInit w rackStr = none := rfl

theorem foldl_addToBag (calls : List (Char × Nat)) (bag : List Tile) :
    calls.foldl (fun b p => addToBag (Tile.make p.1) p.2 b) bag
      = bag ++ calls.foldl (fun b p => addToBag (Tile.make p.1) p.2 b) [] := by
  induction calls generalizing bag with
  | nil => simp
  | cons p rest ih =>
    simp only [List.foldl_cons]
    rw [ih, ih (addToBag (Tile.make p.1) p.2 [])]
    simp [addToBag, List.append_assoc]

theorem initializeBag_id (bag : List Tile) :
    initializeBag id bag = bag ++ initializeBag id [] := by
  unfold initializeBag
  simpa using foldl_addToBag bagCalls bag

theorem initializeBag_id_len : (initializeBag id ([] : List Tile)).length = 106 := by decide

theorem takeFromBag_id_some (bag : List Tile) :
    ∃ t bag2, takeFromBag id bag = some (t, bag2) ∧ bag2 ≠ [] := by
  unfold takeFromBag
  by_cases hlen : bag.length < 10
  · have hb : (initializeBag id bag).length = bag.length + 106 := by
      rw [initializeBag_id]; simp [initializeBag_id_len]
    have hne : initializeBag id bag ≠ [] := by
      intro h0; rw [h0] at hb; simp at hb
    have hsome := List.getLast?_isSome.mpr hne
    obtain ⟨t, ht⟩ := Option.isSome_iff_exists.mp hsome
    refine ⟨t, (initializeBag id bag).dropLast, ?_, ?_⟩
    · simp [hlen, ht]
    · have hdl : (initializeBag id bag).dropLast.length = bag.length + 106 - 1 := by
        simp [List.length_dropLast, hb]
      intro h0
      rw [h0] at hdl
      simp at hdl
  · have hne : bag ≠ [] := by
      intro h0; rw [h0] at hlen; simp at hlen
    have hsome := List.getLast?_isSome.mpr hne
    obtain ⟨t, ht⟩ := Option.isSome_iff_exists.mp hsome
    refine ⟨t, bag.dropLast, ?_, ?_⟩
    · simp [hlen, ht]
    · have hdl : bag.dropLast.length = bag.length - 1 := by simp [List.length_dropLast]
      intro h0
      rw [h0] at hdl
      simp at hdl
      omega

theorem forPassFuel_no_match (l : Char) :
    ∀ (fuel : Nat) (rack : List Tile) (k : Nat),
      (∀ t ∈ rack, t.letter ≠ l) → forPassFuel l fuel rack k = rack := by
  intro fuel
  induction fuel with
  | zero => intro rack k _; rfl
  | succ n ih =>
    intro rack k h
    cases hg : rack.get? k with
    | none => rw [forPassFuel, hg]
    | some t =>
      have ht : t ∈ rack := List.get?_mem hg
      rw [forPassFuel, hg]
      show (if t.letter = l then forPassFuel l n (pyListRemove t rack) (k + 1)
            else forPassFuel l n rack (k + 1)) = rack
      rw [if_neg (h t ht)]
      exact ih rack (k + 1) h

theorem replenishRackFuel_id_len :
    ∀ (fuel : Nat) (rack bag : List Tile), rack.length < 7 → bag ≠ [] →
      fuel = 7 - rack.length →
      (replenishRackFuel id fuel rack bag).map (fun p => p.1.length) = some 7 := by
  intro fuel
  induction fuel with
  | zero => intro rack bag h1 _ h3; omega
  | succ n ih =>
    intro rack bag h1 h2 h3
    obtain ⟨t, bag2, heq, hne⟩ := takeFromBag_id_some bag
    rw [replenishRackFuel]
    rw [if_pos ⟨h1, List.length_pos.mpr h2⟩, heq]
    by_cases h7 : (rack ++ [t]).length < 7
    · refine ih _ bag2 h7 hne ?_
      simp only [List.length_append, List.length_singleton] at h7 ⊢
      omega
    · have hlen : (rack ++ [t]).length = 7 := by
        simp only [List.length_append, List.length_singleton] at h7 ⊢
        omega
      have hn : n = 0 := by
        simp only [List.length_append, List.length_singleton] at h7
        omega
      subst hn
      simp [replenishRackFuel, hlen]

theorem replenishRack_id_len (rack bag : List Tile) (h1 : rack.length < 7) (h2 : bag ≠ []) :
    (replenishRack id rack bag).map (fun p => p.1.length) = some 7 :=
  replenishRackFuel_id_len _ rack bag h1 h2 rfl

/-! ## Claim theorems -/

/-- C1: the claim says a validated placement of `AT` covering two triple-letter
cells scores 6, and 18 when one of the two cells is triple-word.  On the code,
`place_word` records the full colored cell strings as triggers, and
`calculate_word_score` compares them with the bare strings `TLS`, `DLS`,
`TWS`, `DWS`, which never match; so the score delta is the bare letter sum 2
in both scenarios, not 6 and not 18.  The placement is validated
(`check_word` returns `True`), both covered cells hold the triple-letter
marker (resp. triple-word at `(5, 5)`), the recorded triggers are as
described, and the computed delta is 2. -/
theorem c1_premium_scoring_never_applies :
    (checkWord wordAT (5, 5) rightDir boardTwoTLS 2 false dictAT emptyStr = some .retTrue)
  ∧ (pyGet2 boardTwoTLS 5 5 = some tlsCell)
  ∧ (pyGet2 boardTwoTLS 5 6 = some tlsCell)
  ∧ ((placeWord id wordAT (5, 5) rightDir boardTwoTLS rackAT bagTwentyE).map (fun r => r.2.1)
      = some [('A', tlsCell), ('T', tlsCell)])
  ∧ (calcWordScore wordAT [('A', tlsCell), ('T', tlsCell)] = some 2)
  ∧ (pyGet2 boardTWSTLS 5 5 = some twsCell)
  ∧ ((placeWord id wordAT (5, 5) rightDir boardTWSTLS rackAT bagTwentyE).map (fun r => r.2.1)
      = some [('A', twsCell), ('T', tlsCell)])
  ∧ (calcWordScore wordAT [('A', twsCell), ('T', tlsCell)] = some 2)
  ∧ ((2 : Nat) ≠ 6) ∧ ((2 : Nat) ≠ 18) := by decide

/-- C2: the claim says a word overflowing the grid from an in-range start is
rejected with the out-of-bounds message and no cell outside the grid is read.
On the code, the reading loop at the top of `check_word` indexes
`board[14][15]` for `CAT` at `(14, 14)` going right before the bounds check
runs, so the call raises `IndexError` (modelled as `none`) instead of
returning the out-of-bounds message. -/
theorem c2_oob_read_raises_before_bounds_msg :
    (checkWord wordCAT (14, 14) rightDir initialBoard 2 false dictAT emptyStr = none)
  ∧ ((none : Option PyRet) ≠ some (.retMsg outOfBoundsMsg)) := by decide

/-- C3: the claim says that in round 2 or later a placement covering no placed
letter is rejected as disconnected, premium markers counting as empty.  On the
code, the stored premium strings carry ANSI escapes, so `strip()` does not
reduce them to the bare markers and they are classified as existing letters:
`AT` at `(0, 0)` going right in round 2 covers only the triple-word marker and
an empty cell, holds no placed letter, and is nevertheless accepted. -/
theorem c3_premium_marker_defeats_connectivity :
    (checkWord wordAT (0, 0) rightDir initialBoard 2 false dictAT emptyStr = some .retTrue)
  ∧ (pyGet2 initialBoard 0 0 = some twsCell)
  ∧ (pyGet2 initialBoard 0 1 = some emptyCell)
  ∧ (some PyRet.retTrue ≠ some (.retMsg disconnectedMsg)) := by decide

/-- C4: the claim says the game ends exactly when the skip counter has reached
6 or the rack and the bag are both empty.  On the code the rack-and-bag-empty
clause sits on the continue side of the guard: with both empty the turn
proceeds whether the skip counter is 0 or 6 (first two conjuncts, where the
claim demands the game end), while 6 skips with a non-empty rack do end the
game (third conjunct). -/
theorem c4_end_condition_on_wrong_side :
    (turnContinues 0 0 0 = true)
  ∧ (turnContinues 6 0 0 = true)
  ∧ (turnContinues 6 2 9 = false) := by decide

/-- C5: the claim says `end_game` reports the first player with the maximum
score.  On the code the loop compares the bound method `player.get_score`
against the integer `highest_score`, raising `TypeError` on the very first
player of any non-empty list, so no winner is ever computed. -/
theorem c5_winner_selection_raises_typeerror (p : PlayerSt) (ps : List PlayerSt) :
    endGame (p :: ps) = .error typeErrorMsg := rfl

/-- C6: the claim says `place_word` records bonus triggers exactly for the
non-empty cells it overwrites, the same cells for both directions.  On the
code the vertical branch checks the horizontally offset cells
`board[r][c + i]` while writing to `board[r + i][c]`: placing `AT` downward at
`(4, 6)` on a board whose only letter is at `(4, 7)` writes to the two empty
cells `(4, 6)` and `(5, 6)` yet records the trigger `(T, letter X cell)` taken
from `(4, 7)`, where the claim demands an empty trigger list. -/
theorem c6_down_trigger_cells_mismatch :
    (pyGet2 boardWithX 4 6 = some emptyCell)
  ∧ (pyGet2 boardWithX 5 6 = some emptyCell)
  ∧ (pyGet2 boardWithX 4 7 = some (letterCell 'X'))
  ∧ ((placeWord id wordAT (4, 6) downDir boardWithX rackAT bagTwentyE).map (fun r => r.2.1)
      = some [('T', letterCell 'X')])
  ∧ ((placeWord id wordAT (4, 6) downDir boardWithX rackAT bagTwentyE).map (fun r => pyGet2 r.1 4 6)
      = some (some (letterCell 'A')))
  ∧ ((placeWord id wordAT (4, 6) downDir boardWithX rackAT bagTwentyE).map (fun r => pyGet2 r.1 5 6)
      = some (some (letterCell 'T')))
  ∧ ([('T', letterCell 'X')] ≠ ([] : List (Char × String))) := by decide

/-- C7: the claim says every bag fill produces exactly the canonical 100-tile
distribution, a draw never fails, and a refill-triggered draw leaves 99 tiles.
On the code a fill appends 106 tiles (with 9 tiles `J` and 1 tile `K`) to the
current contents, so the initial population has 106 tiles and a
refill-triggered draw on a 9-tile bag leaves 114; only the never-fails part
holds. -/
theorem c7_bag_fill_is_106_with_j9_k1 :
    ((initializeBag id ([] : List Tile)).length = 106)
  ∧ (countLetter 'J' (initializeBag id []) = 9)
  ∧ (countLetter 'K' (initializeBag id []) = 1)
  ∧ (∀ bag : List Tile, (takeFromBag id bag).isSome = true)
  ∧ ((takeFromBag id (List.replicate 9 (Tile.make 'A'))).map (fun p => p.2.length) = some 114) := by
  refine ⟨by decide, by decide, by decide, ?_, by decide⟩
  intro bag
  obtain ⟨t, bag2, heq, -⟩ := takeFromBag_id_some bag
  simp [heq]

/-- C8 counterexample: the claim puts OutOfBounds before Disconnected and says
an empty word yields the NotAWord error.  On the code, `AT` at `(-1, 1)` going
right in round 2 is out of bounds (negative row) and touches no letter, yet
the Disconnected message is returned; and the empty word returns the Python
`None`, not the NotAWord message. -/
theorem c8_spec_order_counterexample :
    (checkWord wordAT (-1, 1) rightDir initialBoard 2 false dictAT emptyStr
      = some (.retMsg disconnectedMsg))
  ∧ (disconnectedMsg ≠ outOfBoundsMsg)
  ∧ (checkWord emptyStr (7, 7) rightDir initialBoard 1 true dictAT emptyStr = some .retNone)
  ∧ (PyRet.retNone ≠ .retMsg notAWordMsg) := by decide

/-- C8 (amended): `check_word` returns `True`, the Python `None` for an empty
word, raises when the reading loop indexes past the grid, and otherwise
returns the first failing reason in the order InvalidDirection, NotAWord,
Disconnected, MissingTiles (inert), OutOfBounds, MustStartAtCenter — the
order of `checkWordSpecOrder`, which lists those checks explicitly. -/
theorem c8_first_failing_reason_in_code_order (wordIn : String) (loc : Int × Int)
    (directionIn : String) (board : List (List String)) (roundNumber : Nat)
    (isFirstPlayer : Bool) (dictionary : List String) (rackStr : String) :
    checkWord wordIn loc directionIn board roundNumber isFirstPlayer dictionary rackStr
      = checkWordSpecOrder wordIn loc directionIn board roundNumber isFirstPlayer dictionary rackStr := by
  unfold checkWord checkWordSpecOrder
  by_cases hw : pyUpper wordIn = ""
  · simp [hw]
  · have hrd : ("right" : String) ≠ "down" := by decide
    have hdr : ("down" : String) ≠ "right" := by decide
    by_cases hd1 : pyLower directionIn = "right"
    · simp only [hw, hd1, ne_eq, not_false_iff, if_true, ite_true, not_true, ite_false,
        decide_not, missingCheck_init, firstMsg, Option.isSome_none, Bool.false_eq_true,
        decide_eq_true_eq, or_true, true_or, not_false_eq_true]
      cases hr : readLtrsRight board loc.1 loc.2 (pyUpper wordIn).length with
      | none => simp
      | some cur =>
        simp only [hrd, false_and, false_or, true_and, if_false, ite_false, or_false]
        by_cases h1 : pyUpper wordIn ∈ dictionary
        · by_cases h2 : 1 < roundNumber ∧ cur = List.replicate (pyUpper wordIn).length ' '
          · simp [h1, h2]
          · by_cases h3 : loc.1 < 0 ∨ loc.2 < 0 ∨ (15 : Int) < loc.2 + ((pyUpper wordIn).length : Int)
            · simp [h1, h2, h3, missingCheck_init]
            · by_cases h4 : roundNumber = 1 ∧ isFirstPlayer = true ∧ ¬loc = (7, 7)
              · simp [h1, h2, h3, h4, missingCheck_init]
              · simp [h1, h2, h3, h4, missingCheck_init]
        · simp [h1]
    · by_cases hd2 : pyLower directionIn = "down"
      · simp only [hw, hd1, hd2, ne_eq, not_false_iff, if_true, ite_true, not_true, ite_false,
          decide_not, missingCheck_init, firstMsg, Option.isSome_none, Bool.false_eq_true,
          decide_eq_true_eq, or_true, true_or, not_false_eq_true]
        cases hr : readLtrsDown board loc.1 loc.2 (pyUpper wordIn).length with
        | none => simp
        | some cur =>
          simp only [hdr, false_and, false_or, true_and, if_false, ite_false, or_false]
          by_cases h1 : pyUpper wordIn ∈ dictionary
          · by_cases h2 : 1 < roundNumber ∧ cur = List.replicate (pyUpper wordIn).length ' '
            · simp [h1, h2]
            · by_cases h3 : loc.1 < 0 ∨ loc.2 < 0 ∨ (15 : Int) < loc.1 + ((pyUpper wordIn).length : Int)
              · simp [h1, h2, h3, missingCheck_init]
              · by_cases h4 : roundNumber = 1 ∧ isFirstPlayer = true ∧ ¬loc = (7, 7)
                · simp [h1, h2, h3, h4, missingCheck_init]
                · simp [h1, h2, h3, h4, missingCheck_init]
          · simp [h1]
      · simp [hw, hd1, hd2]

/-- C9: `check_word` leaves the board array, the players (racks and scores)
and the bag unchanged — the only state it touches is the lazily loaded
dictionary global — and calling it again on the resulting state yields the
same verdict. -/
theorem c9_check_word_preserves_state_and_verdict (dicFile : List String) (wordIn : String)
    (loc : Int × Int) (directionIn : String) (playerIdx roundNumber : Nat)
    (isFirstPlayer : Bool) (s : GameSt) :
    ((checkWordS dicFile wordIn loc directionIn playerIdx roundNumber isFirstPlayer s).2.board
        = s.board
      ∧ (checkWordS dicFile wordIn loc directionIn playerIdx roundNumber isFirstPlayer s).2.players
        = s.players
      ∧ (checkWordS dicFile wordIn loc directionIn playerIdx roundNumber isFirstPlayer s).2.bag
        = s.bag)
    ∧ (checkWordS dicFile wordIn loc directionIn playerIdx roundNumber isFirstPlayer
        ((checkWordS dicFile wordIn loc directionIn playerIdx roundNumber isFirstPlayer s).2)).1
      = (checkWordS dicFile wordIn loc directionIn playerIdx roundNumber isFirstPlayer s).1 := by
  cases h : s.dictLoaded with
  | some d => simp [checkWordS, loadDictionary, h]
  | none => simp [checkWordS, loadDictionary, h]

/-- C10: the tile-removal loop of `place_word` removes, per word letter, every
matching rack tile its forward pass visits — a rack holding two non-adjacent
`A` tiles loses both to a word using `A` once — a letter with no matching
tile leaves the rack unchanged without any error, and the rack is then
replenished to 7 tiles (given a non-empty bag). -/
theorem c10_rack_removal_pass_semantics :
    (removeTiles wordA [Tile.make 'A', Tile.make 'X', Tile.make 'A'] = [Tile.make 'X'])
  ∧ (∀ (l : Char) (fuel : Nat) (rack : List Tile) (k : Nat),
      (∀ t ∈ rack, t.letter ≠ l) → forPassFuel l fuel rack k = rack)
  ∧ (∀ rack bag : List Tile, rack.length < 7 → bag ≠ [] →
      (replenishRack id rack bag).map (fun p => p.1.length) = some 7) :=
  ⟨by decide, forPassFuel_no_match, replenishRack_id_len⟩

/-- C10 witness: the no-match pass and the replenishment conjuncts of
`c10_rack_removal_pass_semantics` instantiated at concrete inputs. -/
theorem c10_rack_removal_pass_semantics_witness :
    (forPassFuel 'Z' 1 [Tile.make 'A'] 0 = [Tile.make 'A'])
  ∧ ((replenishRack id [] (List.replicate 10 (Tile.make 'E'))).map (fun p => p.1.length)
      = some 7) :=
  ⟨c10_rack_removal_pass_semantics.2.1 'Z' 1 [Tile.make 'A'] 0 (by decide),
   c10_rack_removal_pass_semantics.2.2 [] (List.replicate 10 (Tile.make 'E'))
     (by decide) (by decide)⟩

end Scrabble
